import Mathlib

/-!
# Shallow embedding of `iroha-python`'s asset data model (`src/data_model/asset.rs`)

Rust strings are modelled as `List Char`.  Fallible pyo3 methods
(`PyResult<T>`) are modelled as `Except PyErr T`; a Rust panic
(`todo!()` / `unimplemented!()` / a panicking library call) is modelled by the
distinguished error `PyErr.panic`.  Mutating `&mut self` methods are modelled
in state-passing style: they return the updated value on success and an error
(with the original value implicitly unchanged) on failure, mirroring the
source, which performs all fallible work before any field assignment.

The grammars of the external `iroha_data_model` crate (identifier `Name`s,
IPFS paths, `Display`/`FromStr` of `AssetDefinitionId`) are not part of the
repository; they are modelled from the spec where needed, and each such
definition says so in its doc comment.
-/

set_option autoImplicit false

namespace IrohaPy

/-- The Python-level error outcomes of the pyo3 methods in `asset.rs`:
`PyValueError`, `PyNotImplementedError`, or a Rust panic
(`todo!()` / `unimplemented!()` / a panicking library call). -/
inductive PyErr where
  | valueError (msg : List Char)
  | notImplementedError (msg : List Char)
  | panic
deriving DecidableEq, Repr

/-- Does an `Except` result carry a `ValueError`? -/
def resultIsValueError {α : Type} : Except PyErr α → Bool
  | .error (.valueError _) => true
  | _ => false

/-- Modelled from the spec: the restricted identifier grammar of the external
`iroha_data_model` `Name` type — "non-empty, no reserved separator
characters" (the separators are `#` between a definition name and its domain
and `@` between a definition id and an account). -/
def nameValid (s : List Char) : Bool :=
  !s.isEmpty && s.all (fun c => c != '#' && c != '@')

/-- An identifier-component name of the external `iroha_data_model` crate. -/
structure Name where
  chars : List Char
deriving DecidableEq, Repr

/-- Modelled from the spec: the message produced by the external grammar
engine for a malformed identifier component (the spec treats it as opaque). -/
def grammarErrMsg : List Char := "name not in the identifier grammar".toList

/-- Modelled from the spec: `str::parse` into `Name`, failing on a string
outside the restricted identifier grammar. -/
def parseName (s : List Char) : Except (List Char) Name :=
  if nameValid s then .ok ⟨s⟩ else .error grammarErrMsg

/-- `DomainId` of the external crate: a wrapper around a `Name`. -/
structure DomainId where
  name : Name
deriving DecidableEq, Repr

/-- `AssetDefinitionId`: `name: Name`, `domain: DomainId`. -/
structure AssetDefinitionId where
  name : Name
  domain : DomainId
deriving DecidableEq, Repr

/-- The `PyValueError` wrapping a failed parse of the `name` component,
message as in the source (`"Invalid AssedDefinitionId name: {e}"`,
typo included). -/
def invalidNameErr (e : List Char) : PyErr :=
  .valueError ("Invalid AssedDefinitionId name: ".toList ++ e)

/-- The `PyValueError` wrapping a failed parse of the `domain` component,
message as in the source (`"Invalid Domain name: {e}"`). -/
def invalidDomainErr (e : List Char) : PyErr :=
  .valueError ("Invalid Domain name: ".toList ++ e)

/-- The spec's `ParseError` class: in the source every malformed identifier
component is signalled as a `PyValueError` wrapping the grammar engine's
message in one of the two `"Invalid …"` wrappers above. -/
def PyErr.isIdParse (e : PyErr) : Bool :=
  e == invalidNameErr grammarErrMsg || e == invalidDomainErr grammarErrMsg

/-- `PyAssetDefinitionId::new(name, domain)`: parse both components, wrapping
each failure in a `PyValueError` (source lines 27–35). -/
def pyAssetDefinitionIdNew (name domain : List Char) :
    Except PyErr AssetDefinitionId :=
  match parseName name with
  | .error e => .error (invalidNameErr e)
  | .ok n =>
    match parseName domain with
    | .error e => .error (invalidDomainErr e)
    | .ok d => .ok ⟨n, ⟨d⟩⟩

/-- `PyAssetDefinitionId::set_name` (source lines 43–48): re-parse the new
name; on success assign only the `name` field, on failure return the error
before any assignment. -/
def pySetName (id : AssetDefinitionId) (name : List Char) :
    Except PyErr AssetDefinitionId :=
  match parseName name with
  | .error e => .error (invalidNameErr e)
  | .ok n => .ok { id with name := n }

/-- `PyAssetDefinitionId::set_domain` (source lines 56–61): re-parse the new
domain name; on success assign only `domain.name`, on failure return the
error before any assignment. -/
def pySetDomain (id : AssetDefinitionId) (name : List Char) :
    Except PyErr AssetDefinitionId :=
  match parseName name with
  | .error e => .error (invalidDomainErr e)
  | .ok n => .ok { id with domain := ⟨n⟩ }

/-- Modelled from the spec: the canonical form `<name>#<domain>` produced by
the external crate's `Display` for `AssetDefinitionId`. -/
def formatAssetDefinitionId (id : AssetDefinitionId) : List Char :=
  id.name.chars ++ '#' :: id.domain.name.chars

/-- Split a character list at its first `'#'`; `none` when there is none. -/
def splitAtHash : List Char → Option (List Char × List Char)
  | [] => none
  | c :: cs =>
    if c = '#' then some ([], cs)
    else match splitAtHash cs with
      | some (a, b) => some (c :: a, b)
      | none => none

/-- Modelled from the spec: the external crate's `FromStr` for
`AssetDefinitionId` over the grammar `<name>#<domain>` — split at the
separator and parse each component; the wrapping `PyValueError`s are the ones
the Python constructor produces. -/
def parseAssetDefinitionId (s : List Char) : Except PyErr AssetDefinitionId :=
  match splitAtHash s with
  | some (n, d) => pyAssetDefinitionIdNew n d
  | none => .error (invalidNameErr grammarErrMsg)

/-! ## Numeric values (`iroha_primitives::numeric::Numeric`, `rust_decimal::Decimal`) -/

/-- `iroha_primitives::numeric::Numeric`: an unscaled `u128` mantissa and a
`u32` decimal scale.  `Numeric::new(mantissa, scale)` is the plain
constructor, so the structure literal models it directly.  The `u128` range
is an invariant of every value the embedded code ever builds. -/
structure Numeric where
  mantissa : Nat
  scale : Nat
deriving DecidableEq, Repr

/-- Opaque structured metadata of a `Store`-typed value.  No claim inspects
its contents; a key/value list of strings stands in for the external
`Metadata` map. -/
def Metadata : Type := List (List Char × List Char)

instance : DecidableEq Metadata := by
  unfold Metadata; infer_instance

/-- The empty metadata map. -/
def Metadata.empty : Metadata := []

/-- `iroha_data_model::asset::AssetValue`:
`Numeric(Numeric) | Store(Metadata)`. -/
inductive AssetValue where
  | numeric (n : Numeric)
  | store (m : Metadata)
deriving DecidableEq

/-- `rust_decimal::Decimal`: a signed 96-bit unscaled mantissa together with
a decimal scale of at most 28.  The range conditions are checked (with a
panic) by `from_i128_with_scale` below, so a plain structure suffices. -/
structure Decimal where
  mantissa : Int
  scale : Nat
deriving DecidableEq, Repr

/-- The largest magnitude `rust_decimal::Decimal` can hold: `2^96 - 1`
(`MAX_I128_REPR`). -/
def decimalMaxRepr : Nat := 2 ^ 96 - 1

/-- The exact rational value of a `Decimal`: `mantissa / 10^scale`. -/
def Decimal.toRat (d : Decimal) : ℚ := (d.mantissa : ℚ) / (10 : ℚ) ^ d.scale

/-- Rust's `as i128` cast applied to a `u128` value: values at or above
`2^127` wrap around to negatives. -/
def u128AsI128 (m : Nat) : Int :=
  if m < 2 ^ 127 then (m : Int) else (m : Int) - 2 ^ 128

/-- `rust_decimal::Decimal::from_i128_with_scale`: returns the decimal when
`|num| ≤ 2^96 - 1` and `scale ≤ 28`, and otherwise panics (`none`). -/
def fromI128WithScale (num : Int) (scale : Nat) : Option Decimal :=
  if num.natAbs ≤ decimalMaxRepr ∧ scale ≤ 28 then some ⟨num, scale⟩
  else none

/-! ## `PyAsset` -/

/-- `AssetId`: an `AssetDefinitionId` plus an account.  The account id is an
external type only carried along here, modelled by its canonical string. -/
structure AssetId where
  definition : AssetDefinitionId
  account : List Char
deriving DecidableEq

/-- `Asset`: an `AssetId` and an `AssetValue`. -/
structure Asset where
  id : AssetId
  value : AssetValue
deriving DecidableEq

/-- The Python argument of `PyAsset::new` / `set_value`, as the source's
extraction chain classifies it:
* `int n` — a non-negative Python `int`; the source first tries
  `extract::<u32>`, then `extract::<u128>`, so `n < 2^128` lands in the
  numeric fast path and larger ints fall through to the `f64` extraction;
* `nonNumeric r` — an object none of `u32`/`u128`/`f64` accepts, carried
  with its display string `r`.
Genuine `float` arguments take the `f64`/`Decimal::from_f64` path, which is
binary floating point and is not modelled here. -/
inductive PyValue where
  | int (n : Nat)
  | nonNumeric (r : List Char)
deriving DecidableEq

/-- The numeric-extraction chain shared by `PyAsset::new` (lines 246–260) and
`PyAsset::set_value` (lines 293–306): `u32` branch, then `u128` branch.  A
Python int of `2^128` or more fails both integer extractions and is taken by
`extract::<f64>`; the resulting magnitude exceeds `Decimal`'s range, so
`Decimal::from_f64` yields `None` and the conversion fails with the decimal
`ValueError`.  On a non-numeric object the chain falls through (`none`) and
the two callers differ in the error they raise. -/
def extractNumericValue (v : PyValue) : Option (Except PyErr AssetValue) :=
  match v with
  | .int n =>
    if n < 2 ^ 32 then some (.ok (.numeric ⟨n, 0⟩))
    else if n < 2 ^ 128 then some (.ok (.numeric ⟨n, 0⟩))
    else some (.error (.valueError
      "float could not be converted into decimal number".toList))
  | .nonNumeric _ => none

/-- `PyAsset::new(id, value)` (lines 245–263): run the extraction chain; on
fall-through raise `PyValueError("Unrecognised value for asset: {value}")`. -/
def pyAssetNew (id : AssetId) (value : PyValue) : Except PyErr Asset :=
  match extractNumericValue value with
  | some (.ok v) => .ok ⟨id, v⟩
  | some (.error e) => .error e
  | none =>
    .error (.valueError ("Unrecognised value for asset: ".toList ++
      (match value with | .nonNumeric r => r | .int _ => [])))

/-- `PyAsset::set_value` (lines 292–309): the same extraction chain, but on
fall-through raise `PyNotImplementedError("Metadata Values are currently
read-only")`; on success replace the `value` field. -/
def pyAssetSetValue (a : Asset) (value : PyValue) : Except PyErr Asset :=
  match extractNumericValue value with
  | some (.ok v) => .ok { a with value := v }
  | some (.error e) => .error e
  | none =>
    .error (.notImplementedError "Metadata Values are currently read-only".toList)

/-- `PyAsset::get_value` (lines 276–289): a `Numeric` value is converted with
`Decimal::from_i128_with_scale(mantissa as i128, scale)` (a panic when out of
`Decimal`'s range); a `Store` value hits `unimplemented!()`, a panic. -/
def pyAssetGetValue (a : Asset) : Except PyErr Decimal :=
  match a.value with
  | .numeric n =>
    match fromI128WithScale (u128AsI128 n.mantissa) n.scale with
    | some d => .ok d
    | none => .error .panic
  | .store _ => .error .panic

/-! ## `PyNewAssetDefinition` -/

/-- `iroha_primitives::numeric::NumericSpec`: unconstrained, or a fixed
fractional scale. -/
inductive NumericSpec where
  | unconstrained
  | fractional (scale : Nat)
deriving DecidableEq, Repr

/-- `iroha_data_model::asset::AssetType`: `Numeric(NumericSpec) | Store`. -/
inductive AssetType where
  | numeric (spec : NumericSpec)
  | store
deriving DecidableEq, Repr

/-- `iroha_data_model::asset::Mintable`: `Infinitely | Once | Not`. -/
inductive Mintable where
  | infinitely
  | once
  | not
deriving DecidableEq, Repr

/-- Modelled from the spec: the IPFS-style content-addressed path grammar
used for logos is external; the spec only requires that validation happen on
construction and update, so validity is kept at "non-empty". -/
def ipfsPathValid (s : List Char) : Bool := !s.isEmpty

/-- `NewAssetDefinition`: the fields of `AssetDefinition` minus `owned_by`
(id, asset type, mint policy, optional logo; the unsupported metadata field
is never populated by any reachable path and is omitted). -/
structure NewAssetDefinition where
  id : AssetDefinitionId
  type_ : AssetType
  mintable : Mintable
  logo : Option (List Char)
deriving DecidableEq, Repr

/-- Modelled from the spec: the external `AssetDefinition::new(id, type)`
builder used at line 132, with the default mint policy applied (the spec
leaves the concrete default to external configuration; the external crate's
default, `Infinitely`, is used) and no logo. -/
def assetDefinitionNew (id : AssetDefinitionId) (type_ : AssetType) :
    NewAssetDefinition :=
  ⟨id, type_, .infinitely, none⟩

/-- The `id` argument of `PyNewAssetDefinition::new`, as the source's
extraction chain classifies it: a pre-built `PyAssetDefinitionId`, a string,
or any other object. -/
inductive IdArg where
  | defnId (id : AssetDefinitionId)
  | str (s : List Char)
  | other
deriving DecidableEq

/-- `PyNewAssetDefinition::new` (lines 112–146): resolve the id (pre-built
value, parsed string, or a `ValueError`); build the definition with the
default policy; overwrite `mintable` when given; parse and set the logo when
given (`ValueError` on a malformed path); and on structured metadata hit
`todo!()` — a panic. -/
def pyNewAssetDefinitionNew (id : IdArg) (value_type : AssetType)
    (mintable : Option Mintable) (logo : Option (List Char))
    (metadata : Option Metadata) : Except PyErr NewAssetDefinition := do
  let defnId ← match id with
    | .defnId i => pure i
    | .str s =>
      match parseAssetDefinitionId s with
      | .ok i => pure i
      | .error _ => throw (.valueError "Invalid AssetDefinition id: ".toList)
    | .other => throw (.valueError
        "Invalid AssetDefinition id, expected AssetDefinitionId or a string".toList)
  let d := assetDefinitionNew defnId value_type
  let d := match mintable with
    | some m => { d with mintable := m }
    | none => d
  let d ← match logo with
    | some path =>
      if ipfsPathValid path then pure { d with logo := some path }
      else throw (.valueError "Invalid IPFS path: ".toList)
    | none => pure d
  match metadata with
  | some _ => throw .panic
  | none => pure d

/-- `PyNewAssetDefinition::get_mintable` (lines 176–178). -/
def pyNewAssetDefinitionGetMintable (d : NewAssetDefinition) : Mintable :=
  d.mintable

/-- `PyNewAssetDefinition::set_mintable` (lines 181–183), exactly as written
in the source: the parameter has type `PyAssetType` and the body assigns
`self.0.type_`. -/
def pyNewAssetDefinitionSetMintable (d : NewAssetDefinition)
    (new : AssetType) : NewAssetDefinition :=
  { d with type_ := new }

/-- `PyNewAssetDefinition::set_logo` (lines 191–199): with `Some(path)`,
parse it and store it (`ValueError` on failure); with `None`, do nothing and
succeed. -/
def pyNewAssetDefinitionSetLogo (d : NewAssetDefinition)
    (new : Option (List Char)) : Except PyErr NewAssetDefinition :=
  match new with
  | some path =>
    if ipfsPathValid path then .ok { d with logo := some path }
    else .error (.valueError "Malformed IPFS path: ".toList)
  | none => .ok d

/-! ## Concrete fixtures and helper lemmas -/

/-- The identifier `rose#wonderland` from the spec's scenario. -/
def roseId : AssetDefinitionId := ⟨⟨"rose".toList⟩, ⟨⟨"wonderland".toList⟩⟩⟩

/-- A concrete `AssetId` for the rose definition. -/
def sampleAssetId : AssetId := ⟨roseId, "alice@wonderland".toList⟩

lemma parseName_ok {s : List Char} {n : Name} (h : parseName s = .ok n) :
    nameValid s = true ∧ n.chars = s := by
  unfold parseName at h
  by_cases hv : nameValid s = true
  · rw [if_pos hv] at h
    cases h
    exact ⟨hv, rfl⟩
  · rw [if_neg hv] at h
    cases h

lemma parseName_error {s e : List Char} (h : parseName s = .error e) :
    e = grammarErrMsg ∧ nameValid s = false := by
  unfold parseName at h
  by_cases hv : nameValid s = true
  · rw [if_pos hv] at h
    cases h
  · rw [if_neg hv] at h
    injection h with h'
    exact ⟨h'.symm, by simpa using hv⟩

lemma nameValid_no_hash {s : List Char} (h : nameValid s = true) : '#' ∉ s := by
  intro hm
  unfold nameValid at h
  rw [Bool.and_eq_true] at h
  have := List.all_eq_true.mp h.2 '#' hm
  simp at this

lemma nameValid_false_of_hash_mem {s : List Char} (h : '#' ∈ s) :
    nameValid s = false := by
  cases hv : nameValid s with
  | false => rfl
  | true => exact absurd h (nameValid_no_hash hv)

lemma splitAtHash_append (n d : List Char) (hn : '#' ∉ n) :
    splitAtHash (n ++ '#' :: d) = some (n, d) := by
  induction n with
  | nil => simp [splitAtHash]
  | cons c cs ih =>
    have hc : ¬ c = '#' := fun h => hn (h ▸ List.mem_cons_self c cs)
    have hcs : '#' ∉ cs := fun h => hn (List.mem_cons_of_mem c h)
    simp only [List.cons_append, splitAtHash, if_neg hc, List.append_eq, ih hcs]

lemma pyAssetDefinitionIdNew_ok {n d : List Char} {id : AssetDefinitionId}
    (h : pyAssetDefinitionIdNew n d = .ok id) :
    nameValid n = true ∧ nameValid d = true ∧
      id.name.chars = n ∧ id.domain.name.chars = d := by
  unfold pyAssetDefinitionIdNew at h
  cases hn : parseName n with
  | error e => rw [hn] at h; cases h
  | ok nn =>
    rw [hn] at h
    cases hd : parseName d with
    | error e => rw [hd] at h; cases h
    | ok dd =>
      rw [hd] at h
      cases h
      obtain ⟨hv1, hc1⟩ := parseName_ok hn
      obtain ⟨hv2, hc2⟩ := parseName_ok hd
      exact ⟨hv1, hv2, hc1, hc2⟩

lemma pyAssetDefinitionIdNew_of_valid (id : AssetDefinitionId)
    (hn : nameValid id.name.chars = true)
    (hd : nameValid id.domain.name.chars = true) :
    pyAssetDefinitionIdNew id.name.chars id.domain.name.chars = .ok id := by
  unfold pyAssetDefinitionIdNew parseName
  rw [if_pos hn, if_pos hd]

lemma pyAssetGetValue_numeric (id : AssetId) (m s : Nat) :
    pyAssetGetValue ⟨id, .numeric ⟨m, s⟩⟩
      = match fromI128WithScale (u128AsI128 m) s with
        | some d => .ok d
        | none => .error .panic := rfl

lemma extractNumericValue_int {n : Nat} (h : n < 2 ^ 128) :
    extractNumericValue (.int n) = some (.ok (.numeric ⟨n, 0⟩)) := by
  simp only [extractNumericValue]
  by_cases h32 : n < 2 ^ 32
  · rw [if_pos h32]
  · rw [if_neg h32, if_pos h]

/-! ## Claims -/

/-- C1: constructing a `NewAssetDefinition` with `mintable` set to any of
`Infinitely`/`Once`/`Not` and reading it back yields the same variant — this
half holds.  But the mintable setter does not: as written in the source
(`asset.rs:181-183`) it takes an `AssetType` and assigns `self.0.type_`, so
after calling it on a definition with mintable `Once` the mintable field is
still `Once` while the asset type field has changed to the argument — the
exact opposite of the claimed frame condition. -/
theorem c1_set_mintable_assigns_type :
    (∀ m : Mintable,
      (pyNewAssetDefinitionNew (.defnId roseId) (.numeric .unconstrained)
          (some m) none none).map pyNewAssetDefinitionGetMintable = .ok m) ∧
    pyNewAssetDefinitionSetMintable
        ⟨roseId, .numeric .unconstrained, .once, none⟩ .store
      = ⟨roseId, .store, .once, none⟩ ∧
    (AssetType.numeric .unconstrained) ≠ AssetType.store :=
  ⟨fun _ => rfl, rfl, by decide⟩

/-- C2 counterexample: a call to `NewAssetDefinition::new` with a valid
pre-built id and structured metadata hits `todo!()` and panics — it does not
signal a catchable `UnsupportedOperationError` (`PyNotImplementedError`). -/
theorem c2_metadata_construction_panics :
    pyNewAssetDefinitionNew (.defnId roseId) (.numeric .unconstrained)
        none none (some Metadata.empty) = .error .panic ∧
    ∀ msg, PyErr.panic ≠ PyErr.notImplementedError msg :=
  ⟨rfl, fun _ h => PyErr.noConfusion h⟩

/-- C2 amended: whenever the other arguments are accepted (a pre-built id, no
logo), supplying structured metadata makes the constructor fail by a Rust
panic (`todo!()`, `asset.rs:143`): distinct from `ValueError`, but a panic
rather than a signalled `UnsupportedOperationError`. -/
theorem c2_metadata_construction_panic_general (i : AssetDefinitionId)
    (vt : AssetType) (mnt : Option Mintable) (md : Metadata) :
    pyNewAssetDefinitionNew (.defnId i) vt mnt none (some md)
      = .error .panic := by
  cases mnt <;> rfl

/-- C3 counterexample: reading a `Store`-valued asset through the value
getter does not produce a `ValueError` (it panics via `unimplemented!()`,
`asset.rs:286`), and the value setter applied to a non-numeric input does
not produce a `ValueError` either (it raises `PyNotImplementedError`,
`asset.rs:303-305`). -/
theorem c3_store_paths_not_value_error :
    resultIsValueError
        (pyAssetGetValue ⟨sampleAssetId, .store Metadata.empty⟩) = false ∧
    pyAssetGetValue ⟨sampleAssetId, .store Metadata.empty⟩ = .error .panic ∧
    resultIsValueError
        (pyAssetSetValue ⟨sampleAssetId, .numeric ⟨1, 0⟩⟩
          (.nonNumeric "[]".toList)) = false :=
  ⟨rfl, rfl, rfl⟩

/-- C3 amended: for every `Asset` whose value is the `Store` variant the
value getter fails by panic (`unimplemented!()`), not `ValueError`; and for
every `Asset`, the value setter on an input that is none of `u32`/`u128`/
`f64` fails with `PyNotImplementedError` ("Metadata Values are currently
read-only"), not `ValueError`. -/
theorem c3_store_read_panics_set_not_implemented (a : Asset) (m : Metadata)
    (r : List Char) :
    (a.value = .store m → pyAssetGetValue a = .error .panic) ∧
    pyAssetSetValue a (.nonNumeric r)
      = .error (.notImplementedError
          "Metadata Values are currently read-only".toList) := by
  constructor
  · intro hv
    unfold pyAssetGetValue
    rw [hv]
  · rfl

/-- C3 amended, witness at a concrete store-valued asset and a concrete
non-numeric setter input. -/
theorem c3_store_read_panics_set_not_implemented_witness :
    pyAssetGetValue ⟨sampleAssetId, .store Metadata.empty⟩ = .error .panic ∧
    pyAssetSetValue ⟨sampleAssetId, .store Metadata.empty⟩
        (.nonNumeric "x".toList)
      = .error (.notImplementedError
          "Metadata Values are currently read-only".toList) :=
  ⟨(c3_store_read_panics_set_not_implemented
      ⟨sampleAssetId, .store Metadata.empty⟩ Metadata.empty "x".toList).1 rfl,
   (c3_store_read_panics_set_not_implemented
      ⟨sampleAssetId, .store Metadata.empty⟩ Metadata.empty "x".toList).2⟩

/-- C5 counterexample: constructing an `Asset` with the u128 value `2^96`
succeeds (mantissa `2^96`, scale 0), but reading the value back panics:
`Decimal::from_i128_with_scale` is given a number above `Decimal`'s maximum
of `2^96 - 1` (`asset.rs:280`).  So the getter does not succeed for every
u128, and the claimed inverse conversion fails. -/
theorem c5_get_value_panics_at_two_pow_96 :
    pyAssetNew sampleAssetId (.int (2 ^ 96))
      = .ok ⟨sampleAssetId, .numeric ⟨2 ^ 96, 0⟩⟩ ∧
    pyAssetGetValue ⟨sampleAssetId, .numeric ⟨2 ^ 96, 0⟩⟩ = .error .panic := by
  constructor
  · unfold pyAssetNew
    rw [extractNumericValue_int (by norm_num)]
  · rw [pyAssetGetValue_numeric]
    have h1 : u128AsI128 (2 ^ 96) = ((2 ^ 96 : Nat) : Int) := by
      unfold u128AsI128
      rw [if_pos (by norm_num)]
    have h2 : fromI128WithScale ((2 ^ 96 : Nat) : Int) 0 = none := by
      unfold fromI128WithScale
      rw [if_neg]
      intro hcon
      have hle := hcon.1
      rw [Int.natAbs_ofNat] at hle
      unfold decimalMaxRepr at hle
      exact absurd hle (by norm_num)
    rw [h1, h2]

/-- C5 amended: for every unsigned integer `n` strictly below `2^96`,
constructing an `Asset` with value `n` succeeds with mantissa `n` and scale
`0`, and reading it back succeeds and returns the decimal `⟨n, 0⟩`, whose
exact value is `n`; the round trip is the claimed inverse only on this range
(above it the getter panics, and from `2^127` the `as i128` cast wraps). -/
theorem c5_roundtrip_below_two_pow_96 (n : Nat) (h : n < 2 ^ 96)
    (id : AssetId) :
    pyAssetNew id (.int n) = .ok ⟨id, .numeric ⟨n, 0⟩⟩ ∧
    pyAssetGetValue ⟨id, .numeric ⟨n, 0⟩⟩ = .ok ⟨(n : Int), 0⟩ ∧
    Decimal.toRat ⟨(n : Int), 0⟩ = (n : ℚ) := by
  refine ⟨?_, ?_, ?_⟩
  · unfold pyAssetNew
    rw [extractNumericValue_int
      (lt_of_lt_of_le h (Nat.pow_le_pow_right (by norm_num) (by norm_num)))]
  · have h127 : n < 2 ^ 127 :=
      lt_of_lt_of_le h (Nat.pow_le_pow_right (by norm_num) (by norm_num))
    have habs : ((n : Int)).natAbs ≤ decimalMaxRepr := by
      rw [Int.natAbs_ofNat]
      exact Nat.le_pred_of_lt h
    rw [pyAssetGetValue_numeric]
    have h1 : u128AsI128 n = (n : Int) := by
      unfold u128AsI128
      rw [if_pos h127]
    have h2 : fromI128WithScale (n : Int) 0 = some ⟨(n : Int), 0⟩ := by
      unfold fromI128WithScale
      rw [if_pos ⟨habs, by norm_num⟩]
    rw [h1, h2]
  · simp [Decimal.toRat]

/-- C5 amended, witness at `n = 7`. -/
theorem c5_roundtrip_below_two_pow_96_witness :
    pyAssetNew sampleAssetId (.int 7)
      = .ok ⟨sampleAssetId, .numeric ⟨7, 0⟩⟩ ∧
    pyAssetGetValue ⟨sampleAssetId, .numeric ⟨7, 0⟩⟩ = .ok ⟨(7 : Int), 0⟩ ∧
    Decimal.toRat ⟨(7 : Int), 0⟩ = (7 : ℚ) :=
  c5_roundtrip_below_two_pow_96 7 (by norm_num) sampleAssetId

/-- C6: for every `name` string and every `domain` string containing the
separator character `'#'` (e.g. `"a#b"`), constructing an
`AssetDefinitionId` fails with the parse-failure error — the spec's
`ParseError`, signalled in the source as a `PyValueError` wrapping the
grammar message — and no identifier is constructed. -/
theorem c6_domain_with_separator_rejected (name domain : List Char)
    (hd : '#' ∈ domain) :
    ∃ e, pyAssetDefinitionIdNew name domain = .error e ∧
      e.isIdParse = true := by
  unfold pyAssetDefinitionIdNew
  cases hn : parseName name with
  | error e =>
    obtain ⟨he, -⟩ := parseName_error hn
    exact ⟨invalidNameErr e, rfl, by rw [he]; decide⟩
  | ok nn =>
    refine ⟨invalidDomainErr grammarErrMsg, ?_, by decide⟩
    have hpd : parseName domain = .error grammarErrMsg := by
      unfold parseName
      rw [if_neg]
      simp [nameValid_false_of_hash_mem hd]
    rw [hpd]

/-- C6 witness at the spec's scenario input: name `"rose"`, domain
`"a#b"`. -/
theorem c6_domain_with_separator_rejected_witness :
    ∃ e, pyAssetDefinitionIdNew "rose".toList "a#b".toList = .error e ∧
      e.isIdParse = true :=
  c6_domain_with_separator_rejected "rose".toList "a#b".toList (by decide)

/-- C7: for every `AssetDefinitionId` and string, the name setter either
succeeds — changing the `name` field to exactly the parsed input and leaving
the `domain` component exactly as it was — or fails with the identifier
`ParseError`, in which case (the setter parsing before assigning) the
identifier is returned to the caller unchanged; and symmetrically for the
domain setter with the `name` component. -/
theorem c7_setters_frame_and_atomicity (id : AssetDefinitionId)
    (s : List Char) :
    (∀ id', pySetName id s = .ok id' →
      id'.domain = id.domain ∧ parseName s = .ok id'.name) ∧
    (∀ e, pySetName id s = .error e → e.isIdParse = true) ∧
    (∀ id', pySetDomain id s = .ok id' →
      id'.name = id.name ∧ parseName s = .ok id'.domain.name) ∧
    (∀ e, pySetDomain id s = .error e → e.isIdParse = true) := by
  refine ⟨fun id' h => ?_, fun e h => ?_, fun id' h => ?_, fun e h => ?_⟩
  · unfold pySetName at h
    cases hp : parseName s with
    | error e' => rw [hp] at h; cases h
    | ok n => rw [hp] at h; cases h; exact ⟨rfl, rfl⟩
  · unfold pySetName at h
    cases hp : parseName s with
    | error e' =>
      rw [hp] at h
      cases h
      obtain ⟨he, -⟩ := parseName_error hp
      rw [he]; decide
    | ok n => rw [hp] at h; cases h
  · unfold pySetDomain at h
    cases hp : parseName s with
    | error e' => rw [hp] at h; cases h
    | ok n => rw [hp] at h; cases h; exact ⟨rfl, rfl⟩
  · unfold pySetDomain at h
    cases hp : parseName s with
    | error e' =>
      rw [hp] at h
      cases h
      obtain ⟨he, -⟩ := parseName_error hp
      rw [he]; decide
    | ok n => rw [hp] at h; cases h

/-- C7 witness: setting the name of `rose#wonderland` to `"lily"` succeeds,
leaves the domain untouched, and stores exactly the parsed name. -/
theorem c7_setters_frame_and_atomicity_witness :
    (⟨⟨"lily".toList⟩, ⟨⟨"wonderland".toList⟩⟩⟩ : AssetDefinitionId).domain
        = roseId.domain ∧
    parseName "lily".toList
      = .ok (⟨⟨"lily".toList⟩, ⟨⟨"wonderland".toList⟩⟩⟩ :
          AssetDefinitionId).name :=
  (c7_setters_frame_and_atomicity roseId "lily".toList).1
    ⟨⟨"lily".toList⟩, ⟨⟨"wonderland".toList⟩⟩⟩ rfl

/-- C8: for every unsigned integer `n` representable in 128 bits (which
covers both the `u32` and the `u128` extraction branch), the `Asset`
constructor and the value setter both produce exactly the numeric value
mantissa `n`, scale `0`. -/
theorem c8_integral_fast_path (n : Nat) (h : n < 2 ^ 128) (id : AssetId)
    (a : Asset) :
    pyAssetNew id (.int n) = .ok ⟨id, .numeric ⟨n, 0⟩⟩ ∧
    pyAssetSetValue a (.int n) = .ok { a with value := .numeric ⟨n, 0⟩ } := by
  constructor
  · unfold pyAssetNew
    rw [extractNumericValue_int h]
  · unfold pyAssetSetValue
    rw [extractNumericValue_int h]

/-- C8 witness at `n = 100` (the spec's scenario input `100u32`) and at a
`u128`-branch input `2^64`. -/
theorem c8_integral_fast_path_witness :
    pyAssetNew sampleAssetId (.int 100)
      = .ok ⟨sampleAssetId, .numeric ⟨100, 0⟩⟩ ∧
    pyAssetSetValue ⟨sampleAssetId, .numeric ⟨1, 0⟩⟩ (.int 100)
      = .ok ⟨sampleAssetId, .numeric ⟨100, 0⟩⟩ :=
  c8_integral_fast_path 100 (by norm_num) sampleAssetId
    ⟨sampleAssetId, .numeric ⟨1, 0⟩⟩

/-- C9: `AssetDefinitionId::new("rose", "wonderland")` succeeds; formatting
it yields `"rose#wonderland"`; re-parsing that string yields a value equal
to the original (and equal values hash equally, hashing being a function);
and in general re-parsing the formatted form of any successfully parsed
identifier yields that same identifier. -/
theorem c9_format_parse_roundtrip :
    pyAssetDefinitionIdNew "rose".toList "wonderland".toList = .ok roseId ∧
    formatAssetDefinitionId roseId = "rose#wonderland".toList ∧
    parseAssetDefinitionId "rose#wonderland".toList = .ok roseId ∧
    ∀ s id, parseAssetDefinitionId s = .ok id →
      parseAssetDefinitionId (formatAssetDefinitionId id) = .ok id := by
  refine ⟨rfl, rfl, rfl, fun s id hp => ?_⟩
  unfold parseAssetDefinitionId at hp ⊢
  cases hs : splitAtHash s with
  | none => rw [hs] at hp; cases hp
  | some nd =>
    rw [hs] at hp
    obtain ⟨nn, dd⟩ := nd
    obtain ⟨hv1, hv2, hc1, hc2⟩ := pyAssetDefinitionIdNew_ok hp
    have hvn : nameValid id.name.chars = true := by rw [hc1]; exact hv1
    have hvd : nameValid id.domain.name.chars = true := by rw [hc2]; exact hv2
    have hfmt : formatAssetDefinitionId id
        = id.name.chars ++ '#' :: id.domain.name.chars := rfl
    rw [hfmt, splitAtHash_append _ _ (nameValid_no_hash hvn)]
    exact pyAssetDefinitionIdNew_of_valid id hvn hvd

/-- C9 witness: the general round-trip member applied to the concrete
scenario string. -/
theorem c9_format_parse_roundtrip_witness :
    parseAssetDefinitionId (formatAssetDefinitionId roseId) = .ok roseId :=
  c9_format_parse_roundtrip.2.2.2 "rose#wonderland".toList roseId rfl

/-- C10: calling the logo setter with `None` always succeeds and returns the
definition unchanged — in particular an existing logo is kept, so the setter
cannot clear a previously set logo (`asset.rs:191-199` only assigns inside
the `Some` branch). -/
theorem c10_set_logo_none_is_noop (d : NewAssetDefinition) :
    pyNewAssetDefinitionSetLogo d none = .ok d := rfl

end IrohaPy
